import Mathlib

/-!
Shallow embedding of `controllers/cloudflaretunnel_controller.go` from the
cloudflare-tunnel-operator repository, together with theorems checking the
natural-language specification against it.

Modelling conventions:
* Go strings are Lean `String`s (bytes are represented as codepoints below
  0x100 where raw bytes matter).
* Go `int32`/`int` become `Int`; none of the embedded arithmetic can overflow.
* The Kubernetes client and the Cloudflare SDK are external collaborators.
  Their call/response behaviour is embedded as explicit state
  (`ProviderState`) and outcome oracles (`ChildEnv`, `Except GetErr _`),
  and every call the reconciler issues is recorded in an explicit trace
  (`ProviderCall`, `KubeWrite`) so that claims about "which calls happen"
  are statable.
* Go methods that mutate their pointer receiver (`*CloudflareTunnelReconciler`)
  become functions returning the updated `TunnelExpanded` record alongside the
  error, matching in-place mutation that survives an error return.
-/

namespace CFTunnel

/-- Result of a Kubernetes `Get`: Go distinguishes not-found errors
(via `errors.IsNotFound`) from other errors. -/
inductive GetErr where
  | notFound (msg : String)
  | other (msg : String)
  deriving DecidableEq, Repr

/-- The error message carried by a `GetErr`. -/
def GetErr.msg : GetErr → String
  | .notFound m => m
  | .other m => m

/-- `corev1.ServicePort` — only the `Port` field is consulted by the code. -/
structure ServicePort where
  Port : Int
  deriving DecidableEq, Repr

/-- `corev1.LoadBalancerIngress` — only the `IP` field is consulted. -/
structure LoadBalancerIngress where
  IP : String
  deriving DecidableEq, Repr

/-- The parts of `corev1.Service` read by `getTargetURL`: `Spec.Ports`,
`Spec.Type` (a string type in Kubernetes, e.g. "ClusterIP", "LoadBalancer"),
and `Status.LoadBalancer.Ingress`. -/
structure Service where
  Ports : List ServicePort
  Type' : String
  Ingress : List LoadBalancerIngress
  deriving DecidableEq, Repr

/-- The `Service` field of `CloudflareTunnelSpec`.
Modelled from the spec: the api/v1alpha1 package is not under src/;
spec section 6 lists the consumed fields `service.{name,namespace,port,protocol}`. -/
structure ServiceRef where
  Name : String
  Namespace : String
  Port : Int
  Protocol : String
  deriving DecidableEq, Repr

/-- `cfv1.CloudflareTunnelSpec`.
Modelled from the spec: the api/v1alpha1 package is not under src/; spec
section 6 lists the consumed fields `zone`, `domain`, `tokenSecretName`,
`service`, `replicas`. Field names follow their uses in the controller
(`r.Zone`, `r.Domain`, `r.TokenSecretName`, `r.Service`, `r.Replicas`). -/
structure CloudflareTunnelSpec where
  Zone : String
  Domain : String
  TokenSecretName : String
  Service : ServiceRef
  Replicas : Int
  deriving DecidableEq, Repr

/-- `cfv1.CloudflareTunnelStatus` — holds the persisted `TunnelID`. -/
structure CloudflareTunnelStatus where
  TunnelID : String
  deriving DecidableEq, Repr

/-- `cfv1.CloudflareTunnel`: object metadata (name, namespace), spec, status. -/
structure CloudflareTunnel where
  Name : String
  Namespace : String
  Spec : CloudflareTunnelSpec
  Status : CloudflareTunnelStatus
  deriving DecidableEq, Repr

/-- `TunnelExpanded` from the controller: the desired spec plus the fields the
reconciler accumulates during one pass (the embedded `*cloudflare.API` handle
is represented by the provider-state threading below). -/
structure TunnelExpanded where
  Spec : CloudflareTunnelSpec
  AccountToken : String
  AccountTag : String
  Name : String
  Namespace : String
  TunnelID : String
  TunnelSecret : String
  deriving DecidableEq, Repr

/-- `strconv.Itoa` applied to an `int` (Go and Lean print integers alike). -/
def intToStr (n : Int) : String := toString n

/-- Outcome of `getTargetURL`: a URL, an error, or a Go runtime panic
(index out of range). -/
inductive URLOutcome where
  | ok (url : String)
  | getErr (e : GetErr)
  | panic
  deriving DecidableEq, Repr

/-- The Go source guards the port-matching loop with `if &port == nil`.
Taking the address of a local variable never yields `nil` in Go, so this
condition is identically false; the "port doesn't exist" branch is dead code. -/
def addrOfLocalIsNil : Bool := false

/-- `getTargetURL` (controller lines 412–444).  The target-service `Get` result
is the `svcGet` argument.  Faithful to the source: the matching `ServicePort`
is bound but never used afterwards, the not-found guard compares the address of
a local to nil (`addrOfLocalIsNil`, always false) and — were it ever taken —
would `return "", err` with `err` being the nil error of the successful `Get`,
and the LoadBalancer branch indexes `Ingress[0]` with no bounds check. -/
def getTargetURL (ref : ServiceRef) (svcGet : Except GetErr Service) : URLOutcome :=
  match svcGet with
  | .error e => .getErr e
  | .ok targetService =>
    let _port : ServicePort :=
      ((targetService.Ports.find? (fun servicePort => servicePort.Port == ref.Port)).getD
        { Port := 0 })
    if addrOfLocalIsNil then
      .ok ""
    else if targetService.Type' == "LoadBalancer" then
      match targetService.Ingress with
      | [] => .panic
      | ing :: _ => .ok (ref.Protocol ++ "://" ++ ing.IP ++ ":" ++ intToStr ref.Port)
    else
      .ok (ref.Protocol ++ "://" ++ ref.Name ++ "." ++ ref.Namespace ++ ":" ++ intToStr ref.Port)

/-! ### Base64 (Go `encoding/base64` StdEncoding)

`generateTunnelSecret` base64-encodes 32 random bytes, and the connector token
returned by the provider is base64-decoded.  Both stdlib functions are embedded
here; bytes are `Nat`s below 256. -/

/-- The standard base64 alphabet. -/
def b64Alphabet : List Char :=
  "ABCDEFGHIJKLMNOPQRSTUVWXYZabcdefghijklmnopqrstuvwxyz0123456789+/".toList

/-- The base64 character for a 6-bit value. -/
def b64Char (n : Nat) : Char := b64Alphabet.getD n 'A'

/-- Encode bytes in 3-byte groups to 4 characters, padding with `=`. -/
def b64EncodeChunks : List Nat → List Char
  | [] => []
  | [a] => [b64Char (a / 4), b64Char (a % 4 * 16), '=', '=']
  | [a, b] => [b64Char (a / 4), b64Char (a % 4 * 16 + b / 16), b64Char (b % 16 * 4), '=']
  | a :: b :: c :: rest =>
    b64Char (a / 4) :: b64Char (a % 4 * 16 + b / 16) ::
      b64Char (b % 16 * 4 + c / 64) :: b64Char (c % 64) :: b64EncodeChunks rest

/-- `base64.StdEncoding.EncodeToString`. -/
def base64Encode (bs : List Nat) : String := String.mk (b64EncodeChunks bs)

/-- The 6-bit value of a base64 character (`none` for characters outside the
alphabet, including `=`). -/
def b64Index (c : Char) : Option Nat :=
  let i := b64Alphabet.indexOf c
  if i < 64 then some i else none

/-- Decode characters in 4-character groups; padding only at the end.  Like
Go's (non-Strict) decoder, trailing bits beyond the encoded bytes are
discarded. -/
def b64DecodeChunks : List Char → Option (List Nat)
  | [] => some []
  | [a, b, '=', '='] => do
    let ia ← b64Index a
    let ib ← b64Index b
    pure [ia * 4 + ib / 16]
  | [a, b, c, '='] => do
    let ia ← b64Index a
    let ib ← b64Index b
    let ic ← b64Index c
    pure [ia * 4 + ib / 16, ib % 16 * 16 + ic / 4]
  | a :: b :: c :: d :: rest => do
    let ia ← b64Index a
    let ib ← b64Index b
    let ic ← b64Index c
    let i4 ← b64Index d
    let tail ← b64DecodeChunks rest
    pure ((ia * 4 + ib / 16) :: (ib % 16 * 16 + ic / 4) :: (ic % 4 * 64 + i4) :: tail)
  | _ => none

/-- `base64.StdEncoding.DecodeString`, with the resulting Go byte string
represented as a Lean string of codepoints below 256. -/
def base64Decode (s : String) : Option String :=
  (b64DecodeChunks s.toList).map (fun bs => String.mk (bs.map Char.ofNat))

/-! ### Cloudflare provider model

The Cloudflare SDK is an external collaborator.  Modelled from the spec:
section 6 gives the abstract capability surface
`ListTunnels(name, notDeleted, optionalID)`, `CreateTunnel(name, secret)`,
`GetTunnelConnectionToken(id)`, `ResolveZoneID(zoneName)`,
`ListDNSRecords(zoneID, type, name)`, `CreateDNSRecord(zoneID, record)`.
`ProviderState` is a deterministic in-memory provider in the sense of the
fake provider of spec section 8; transport failures are not modelled. -/

/-- `cloudflare.Tunnel` — the fields the controller reads. -/
structure Tunnel where
  ID : String
  Name : String
  deriving DecidableEq, Repr

/-- `cloudflare.TunnelListParams` as filled in by the controller.  `UUID` is a
plain Go string whose zero value `""` means "no ID filter". -/
structure TunnelListParams where
  AccountID : String
  Name : String
  IsDeleted : Option Bool
  UUID : String
  deriving DecidableEq, Repr

/-- `cloudflare.TunnelCreateParams`. -/
structure TunnelCreateParams where
  AccountID : String
  Name : String
  Secret : String
  deriving DecidableEq, Repr

/-- `cloudflare.TunnelTokenParams`. -/
structure TunnelTokenParams where
  AccountID : String
  ID : String
  deriving DecidableEq, Repr

/-- `cloudflare.DNSRecord` as filled in by the controller. -/
structure DNSRecord where
  Type' : String
  Name : String
  Content : String
  TTL : Int
  deriving DecidableEq, Repr

/-- In-memory provider state: tunnels with their deleted flag, the identifier
the provider will assign to the next created tunnel, the connector tokens by
tunnel identifier, the zone-name→zone-ID table, and DNS records by zone ID. -/
structure ProviderState where
  tunnels : List (Tunnel × Bool)
  freshID : String
  tokens : List (String × String)
  zones : List (String × String)
  dns : List (String × DNSRecord)
  deriving DecidableEq, Repr

/-- One provider API call, as recorded in the call trace. -/
inductive ProviderCall where
  | listTunnels (p : TunnelListParams)
  | createTunnel (p : TunnelCreateParams)
  | tunnelToken (p : TunnelTokenParams)
  | zoneIDByName (zone : String)
  | dnsRecords (zoneID : String) (filter : DNSRecord)
  | createDNSRecord (zoneID : String) (record : DNSRecord)
  deriving DecidableEq, Repr

/-- Association-list lookup (the first binding wins). -/
def lookupStr (l : List (String × String)) (k : String) : Option String :=
  (l.find? (fun kv => kv.1 == k)).map (fun kv => kv.2)

/-- `cf.Tunnels`: tunnels whose name matches, whose deleted flag matches
`IsDeleted` when that filter is set, and whose identifier matches `UUID`
when that filter is nonempty.  Modelled from the spec:
`ListTunnels(name, notDeleted, optionalID)`. -/
def listTunnels (st : ProviderState) (p : TunnelListParams) : List Tunnel :=
  (st.tunnels.filter (fun tb =>
    tb.1.Name == p.Name
      && (match p.IsDeleted with
          | some d => tb.2 == d
          | none => true)
      && (p.UUID == "" || tb.1.ID == p.UUID))).map (fun tb => tb.1)

/-- `cf.CreateTunnel`: the provider returns a tunnel carrying its freshly
assigned identifier and stores it.  Modelled from the spec:
`CreateTunnel(name, secret)`. -/
def provCreateTunnel (st : ProviderState) (p : TunnelCreateParams) :
    Tunnel × ProviderState :=
  let t : Tunnel := { ID := st.freshID, Name := p.Name }
  (t, { st with tunnels := st.tunnels ++ [(t, false)] })

/-- `cf.TunnelToken`: the connector token of a tunnel, when the provider has
one.  Modelled from the spec: `GetTunnelConnectionToken(id)`. -/
def provTunnelToken (st : ProviderState) (p : TunnelTokenParams) : Option String :=
  lookupStr st.tokens p.ID

/-- `r.ZoneIDByName`.  Modelled from the spec: `ResolveZoneID(zoneName)`. -/
def provZoneIDByName (st : ProviderState) (zone : String) : Option String :=
  lookupStr st.zones zone

/-- `r.DNSRecords zoneID filter`: the records of the zone whose type and name
match the filter record.  Modelled from the spec:
`ListDNSRecords(zoneID, type, name)`. -/
def listDNSRecords (st : ProviderState) (zoneID : String) (filter : DNSRecord) :
    List DNSRecord :=
  (st.dns.filter (fun zr =>
    zr.1 == zoneID && zr.2.Type' == filter.Type' && zr.2.Name == filter.Name)).map
    (fun zr => zr.2)

/-- `r.CreateDNSRecord`: append the record to the zone.  Modelled from the
spec: `CreateDNSRecord(zoneID, record)`. -/
def provCreateDNSRecord (st : ProviderState) (zoneID : String) (record : DNSRecord) :
    ProviderState :=
  { st with dns := st.dns ++ [(zoneID, record)] }

/-! ### Reconciler step functions -/

/-- `fetchDecodeSecret` (controller lines 130–173).  The Kubernetes secret
store maps (name, namespace) to the secret's `Data` (key → byte-string).
Mirrors the source order: empty `TokenSecretName` fails first, then the `Get`,
then the `token` key, then the `accountID` key; on success `AccountTag` and
`AccountToken` are written onto the receiver. -/
def fetchDecodeSecret (r : TunnelExpanded)
    (store : List ((String × String) × List (String × String))) :
    TunnelExpanded × Option String :=
  if r.Spec.TokenSecretName.length = 0 then
    (r, some "CredentialSecretName key does not exist")
  else
    match (store.find? (fun kv =>
        kv.1.1 == r.Spec.TokenSecretName && kv.1.2 == r.Namespace)).map
        (fun kv => kv.2) with
    | none => (r, some ("secrets \x22" ++ r.Spec.TokenSecretName ++ "\x22 not found"))
    | some data =>
      match lookupStr data "token" with
      | none => (r, some "invalid key")
      | some encodedToken =>
        match lookupStr data "accountID" with
        | none => (r, some "invalid key")
        | some encodedAccountID =>
          ({ r with AccountTag := encodedAccountID, AccountToken := encodedToken }, none)

/-- `generateTunnelSecret` (controller lines 446–450): read 32 bytes from the
entropy source and base64-encode them.  The `crypto/rand` stream is the
`entropy` argument; `rand.Read` errors when it cannot supply 32 bytes. -/
def generateTunnelSecret (entropy : List Nat) : Except String String :=
  if entropy.length < 32 then .error "unexpected EOF"
  else .ok (base64Encode (entropy.take 32))

/-- Construction of the `cloudflare.TunnelListParams` (controller lines
193–201): always filter by account, name and not-deleted; additionally filter
by `UUID` exactly when the reconciler already carries a nonempty `TunnelID`. -/
def mkTunnelListParams (accountID name tunnelID : String) : TunnelListParams :=
  let p : TunnelListParams :=
    { AccountID := accountID, Name := name, IsDeleted := some false, UUID := "" }
  if tunnelID ≠ "" then { p with UUID := tunnelID } else p

/-- Result of `createTunnelRemote`: the (mutated) receiver, the returned
error, the provider state after the call, and the calls issued in order. -/
structure RemoteOut where
  r : TunnelExpanded
  err : Option String
  st : ProviderState
  calls : List ProviderCall
  deriving DecidableEq, Repr

/-- The tail of `createTunnelRemote` after a tunnel has been resolved or
created (controller lines 240–256): adopt the tunnel's identifier onto the
receiver, fetch its connector token and base64-decode it into `TunnelSecret`.
The identifier is assigned before the token fetch, so it survives a
token-fetch or decode failure. -/
def adoptAndFetchToken (r : TunnelExpanded) (st : ProviderState)
    (calls : List ProviderCall) (tunnel : Tunnel) : RemoteOut :=
  let r2 := { r with TunnelID := tunnel.ID }
  let tokenParams : TunnelTokenParams := { AccountID := r.AccountTag, ID := tunnel.ID }
  let calls2 := calls ++ [ProviderCall.tunnelToken tokenParams]
  match provTunnelToken st tokenParams with
  | none => { r := r2, err := some "could not fetch tunnel token", st := st, calls := calls2 }
  | some tunnelToken =>
    match base64Decode tunnelToken with
    | none => { r := r2, err := some "illegal base64 data", st := st, calls := calls2 }
    | some decoded =>
      { r := { r2 with TunnelSecret := decoded }, err := none, st := st, calls := calls2 }

/-- `createTunnelRemote` (controller lines 175–257).  `cloudflare.NewWithAPIToken`
fails only on an empty token.  List the non-deleted tunnels of the given name
(narrowed by the known identifier, `mkTunnelListParams`); with two or more
matches fail, with exactly one reuse it, with none create one under a freshly
generated base64 secret; then adopt the identifier and fetch the connector
token (`adoptAndFetchToken`). -/
def createTunnelRemote (r : TunnelExpanded) (st : ProviderState)
    (entropy : List Nat) : RemoteOut :=
  if r.AccountToken = "" then
    { r := r, err := some "invalid credentials: API Token must not be empty",
      st := st, calls := [] }
  else
    let params := mkTunnelListParams r.AccountTag r.Name r.TunnelID
    let tunnels := listTunnels st params
    let calls0 := [ProviderCall.listTunnels params]
    if 2 ≤ tunnels.length then
      { r := r, err := some "multiple tunnels exist", st := st, calls := calls0 }
    else if tunnels.length = 1 then
      adoptAndFetchToken r st calls0 (tunnels.getD 0 { ID := "", Name := "" })
    else
      match generateTunnelSecret entropy with
      | .error e => { r := r, err := some e, st := st, calls := calls0 }
      | .ok tunnelSecret =>
        let tunnelParams : TunnelCreateParams :=
          { AccountID := r.AccountTag, Name := r.Name, Secret := tunnelSecret }
        let created := provCreateTunnel st tunnelParams
        adoptAndFetchToken r created.2
          (calls0 ++ [ProviderCall.createTunnel tunnelParams]) created.1

/-- Modelled from the spec: `constants.CNAMESuffix` lives in the
controllers/constants package, which is not under src/; the spec describes it
as "a fixed provider-specific suffix" appended to the tunnel identifier. -/
def CNAMESuffix : String := ".cfargotunnel.com"

/-- Result of `createDNSCNAME`: error, provider state after, calls issued. -/
structure DNSOut where
  err : Option String
  st : ProviderState
  calls : List ProviderCall
  deriving DecidableEq, Repr

/-- `createDNSCNAME` (controller lines 259–289): resolve the zone identifier,
list CNAME records named `Domain`; if any exist do nothing, otherwise create
one whose content is `TunnelID ++ CNAMESuffix` with `TTL` left at the Go zero
value 0 (the provider-default TTL). -/
def createDNSCNAME (r : TunnelExpanded) (st : ProviderState) : DNSOut :=
  match provZoneIDByName st r.Spec.Zone with
  | none =>
    { err := some "could not fetch zone id", st := st,
      calls := [ProviderCall.zoneIDByName r.Spec.Zone] }
  | some zoneID =>
    let filter : DNSRecord := { Type' := "CNAME", Name := r.Spec.Domain, Content := "", TTL := 0 }
    let dnsRecords := listDNSRecords st zoneID filter
    let calls1 := [ProviderCall.zoneIDByName r.Spec.Zone,
      ProviderCall.dnsRecords zoneID filter]
    if dnsRecords.length ≠ 0 then
      { err := none, st := st, calls := calls1 }
    else
      let record : DNSRecord :=
        { Type' := "CNAME", Name := r.Spec.Domain,
          Content := r.TunnelID ++ CNAMESuffix, TTL := 0 }
      { err := none, st := provCreateDNSRecord st zoneID record,
        calls := calls1 ++ [ProviderCall.createDNSRecord zoneID record] }

/-! ### Child-resource synchronization

The three builders (`models.Secret`, `models.ConfigMap`, `models.Deployment`)
live in the controllers/models package, which is not under src/.  Modelled
from the spec: each builder produces the desired child object from the
current resolved state; the model records below carry exactly the fields the
controller passes to them.  The Kubernetes client is an external collaborator;
the outcomes of its `Get`/`Create`/`Update` calls for one child are the
`ChildEnv` oracle, and the writes issued are recorded as `KubeWrite`s. -/

/-- `models.SecretModel` as filled in at controller lines 295–300. -/
structure SecretModel where
  Name : String
  Namespace : String
  TunnelSecret : String
  TunnelID : String
  deriving DecidableEq, Repr

/-- `models.ConfigMapModel` as filled in at controller lines 333–339. -/
structure ConfigMapModel where
  Name : String
  Namespace : String
  Service : String
  TunnelID : String
  Domain : String
  deriving DecidableEq, Repr

/-- `models.DeploymentModel` as filled in at controller lines 375–382
(the secret and config-map arguments are the pointers returned by the two
earlier sync calls, hence `Option`s). -/
structure DeploymentModel where
  Name : String
  Namespace : String
  Replicas : Int
  TunnelID : String
  Secret : Option SecretModel
  ConfigMap : Option ConfigMapModel
  deriving DecidableEq, Repr

/-- Outcome of the Kubernetes `Get` for a child resource. -/
inductive FetchRes where
  | found
  | notFoundE (msg : String)
  | otherE (msg : String)
  deriving DecidableEq, Repr

/-- Oracle for one child resource's sync: whether stamping the owner
reference fails, what the `Get` returns, and whether `Create`/`Update`
fail. -/
structure ChildEnv where
  ownerRefErr : Option String
  fetch : FetchRes
  createErr : Option String
  updateErr : Option String
  deriving DecidableEq, Repr

/-- One write issued against the Kubernetes API.  `statusUpdateW` is the
status-subresource update of the CloudflareTunnel object itself — part of the
consumed API surface (the controller holds RBAC for it) and included here so
that its absence from every trace is statable. -/
inductive KubeWrite where
  | createW (kind : String) (name ns : String)
  | updateW (kind : String) (name ns : String)
  | statusUpdateW (name ns : String)
  deriving DecidableEq, Repr

/-- Result of one child sync: the returned resource pointer (`none` = Go
`nil`), the returned error, and the writes issued. -/
structure SyncOut (α : Type) where
  res : Option α
  err : Option String
  writes : List KubeWrite
  deriving DecidableEq, Repr

/-- The create-or-update body shared verbatim by `createSecret` (lines
302–327), `createConfigMap` (lines 345–369) and `createDeployment` (lines
385–409): stamp the owner reference, `Get` the existing object; if the `Get`
fails with not-found, `Create` the desired object — but then fall through to
`return nil, err` with the original not-found error, even when the create
succeeded; on any other `Get` error return it; if the object exists, `Update`
it with the desired object and return it. -/
def syncChild (kind : String) (name ns : String) (desired : α) (env : ChildEnv) :
    SyncOut α :=
  match env.ownerRefErr with
  | some e => { res := none, err := some e, writes := [] }
  | none =>
    match env.fetch with
    | .otherE e => { res := none, err := some e, writes := [] }
    | .notFoundE e =>
      match env.createErr with
      | some ce => { res := none, err := some ce, writes := [KubeWrite.createW kind name ns] }
      | none => { res := none, err := some e, writes := [KubeWrite.createW kind name ns] }
    | .found =>
      match env.updateErr with
      | some ue => { res := none, err := some ue, writes := [KubeWrite.updateW kind name ns] }
      | none => { res := some desired, err := none, writes := [KubeWrite.updateW kind name ns] }

/-- `createSecret` (controller lines 291–328): build the desired credential
secret from the resolved state and create-or-update it. -/
def createSecret (r : TunnelExpanded) (env : ChildEnv) : SyncOut SecretModel :=
  syncChild "Secret" r.Name r.Namespace
    { Name := r.Name, Namespace := r.Namespace,
      TunnelSecret := r.TunnelSecret, TunnelID := r.TunnelID } env

/-- `createConfigMap` (controller lines 330–370): the builder itself can fail
(`GetConfigMap` renders a template), modelled by the `buildErr` oracle checked
first as in the source; then create-or-update the desired config map. -/
def createConfigMap (r : TunnelExpanded) (url : String) (buildErr : Option String)
    (env : ChildEnv) : SyncOut ConfigMapModel :=
  match buildErr with
  | some e => { res := none, err := some e, writes := [] }
  | none =>
    syncChild "ConfigMap" r.Name r.Namespace
      { Name := r.Name, Namespace := r.Namespace, Service := url,
        TunnelID := r.TunnelID, Domain := r.Spec.Domain } env

/-- `createDeployment` (controller lines 372–410): build the desired workload
deployment from the resolved state and the two previously returned resources,
and create-or-update it. -/
def createDeployment (r : TunnelExpanded) (secret : Option SecretModel)
    (configMap : Option ConfigMapModel) (env : ChildEnv) : SyncOut DeploymentModel :=
  syncChild "Deployment" r.Name r.Namespace
    { Name := r.Name, Namespace := r.Namespace, Replicas := r.Spec.Replicas,
      TunnelID := r.TunnelID, Secret := secret, ConfigMap := configMap } env

/-! ### The Reconcile orchestrator -/

/-- The pipeline steps of one reconcile pass, recorded in order as each one
starts. -/
inductive Step where
  | fetchCR
  | fetchDecodeSecret
  | createTunnelRemote
  | createSecret
  | getTargetURL
  | createConfigMap
  | createDeployment
  | createDNSCNAME
  deriving DecidableEq, Repr

/-- The external world of one reconcile pass: the `Get` outcome for the
CloudflareTunnel object, the Kubernetes secret store, the provider state, the
entropy stream, the `Get` outcome for the target service, and the sync oracles
of the three child resources. -/
structure ReconcileEnv where
  getCR : Except GetErr CloudflareTunnel
  k8sSecrets : List ((String × String) × List (String × String))
  provider : ProviderState
  entropy : List Nat
  targetService : Except GetErr Service
  secretChild : ChildEnv
  configBuildErr : Option String
  configChild : ChildEnv
  deployChild : ChildEnv
  deriving Repr

/-- Result of one reconcile pass: the returned error (`none` = clean return),
the reconciler's in-memory `TunnelExpanded` as of the return (`none` when the
initial CR fetch failed, before it is built), the CloudflareTunnel status as
persisted in the cluster after the pass, the steps started, and the provider
calls and Kubernetes writes issued. -/
structure ReconcileOut where
  err : Option String
  rFinal : Option TunnelExpanded
  statusTunnelID : Option String
  steps : List Step
  providerCalls : List ProviderCall
  kubeWrites : List KubeWrite
  deriving DecidableEq, Repr

/-- The `TunnelExpanded` built at controller lines 78–83: the desired spec,
the object's name and namespace, and the `TunnelID` read from the persisted
status; the remaining fields start at their Go zero value. -/
def initialExpanded (cr : CloudflareTunnel) : TunnelExpanded :=
  { Spec := cr.Spec, AccountToken := "", AccountTag := "",
    Name := cr.Name, Namespace := cr.Namespace,
    TunnelID := cr.Status.TunnelID, TunnelSecret := "" }

/-- The panic message of an unguarded out-of-range index in Go. -/
def panicMsg : String := "runtime error: index out of range"

/-- `Reconcile` (controller lines 65–120): fetch the CloudflareTunnel, build
the expanded state, then run `fetchDecodeSecret`, `createTunnelRemote`,
`createSecret`, `getTargetURL`, `createConfigMap`, `createDeployment` and
`createDNSCNAME` in order, returning at the first error.  No step writes the
CloudflareTunnel object or its status subresource back to the cluster, so the
persisted status after the pass is the status that was fetched. -/
def reconcile (env : ReconcileEnv) : ReconcileOut :=
  match env.getCR with
  | .error e =>
    { err := some e.msg, rFinal := none, statusTunnelID := none,
      steps := [Step.fetchCR], providerCalls := [], kubeWrites := [] }
  | .ok cr =>
    let persisted := some cr.Status.TunnelID
    let fd := fetchDecodeSecret (initialExpanded cr) env.k8sSecrets
    match fd.2 with
    | some e =>
      { err := some e, rFinal := some fd.1, statusTunnelID := persisted,
        steps := [Step.fetchCR, Step.fetchDecodeSecret],
        providerCalls := [], kubeWrites := [] }
    | none =>
      let ro := createTunnelRemote fd.1 env.provider env.entropy
      match ro.err with
      | some e =>
        { err := some e, rFinal := some ro.r, statusTunnelID := persisted,
          steps := [Step.fetchCR, Step.fetchDecodeSecret, Step.createTunnelRemote],
          providerCalls := ro.calls, kubeWrites := [] }
      | none =>
        let so := createSecret ro.r env.secretChild
        match so.err with
        | some e =>
          { err := some e, rFinal := some ro.r, statusTunnelID := persisted,
            steps := [Step.fetchCR, Step.fetchDecodeSecret, Step.createTunnelRemote,
              Step.createSecret],
            providerCalls := ro.calls, kubeWrites := so.writes }
        | none =>
          match getTargetURL ro.r.Spec.Service env.targetService with
          | .getErr ge =>
            { err := some ge.msg, rFinal := some ro.r, statusTunnelID := persisted,
              steps := [Step.fetchCR, Step.fetchDecodeSecret, Step.createTunnelRemote,
                Step.createSecret, Step.getTargetURL],
              providerCalls := ro.calls, kubeWrites := so.writes }
          | .panic =>
            { err := some panicMsg, rFinal := some ro.r, statusTunnelID := persisted,
              steps := [Step.fetchCR, Step.fetchDecodeSecret, Step.createTunnelRemote,
                Step.createSecret, Step.getTargetURL],
              providerCalls := ro.calls, kubeWrites := so.writes }
          | .ok url =>
            let co := createConfigMap ro.r url env.configBuildErr env.configChild
            match co.err with
            | some e =>
              { err := some e, rFinal := some ro.r, statusTunnelID := persisted,
                steps := [Step.fetchCR, Step.fetchDecodeSecret, Step.createTunnelRemote,
                  Step.createSecret, Step.getTargetURL, Step.createConfigMap],
                providerCalls := ro.calls, kubeWrites := so.writes ++ co.writes }
            | none =>
              let dpo := createDeployment ro.r so.res co.res env.deployChild
              match dpo.err with
              | some e =>
                { err := some e, rFinal := some ro.r, statusTunnelID := persisted,
                  steps := [Step.fetchCR, Step.fetchDecodeSecret, Step.createTunnelRemote,
                    Step.createSecret, Step.getTargetURL, Step.createConfigMap,
                    Step.createDeployment],
                  providerCalls := ro.calls,
                  kubeWrites := so.writes ++ co.writes ++ dpo.writes }
              | none =>
                let dno := createDNSCNAME ro.r ro.st
                { err := dno.err, rFinal := some ro.r, statusTunnelID := persisted,
                  steps := [Step.fetchCR, Step.fetchDecodeSecret, Step.createTunnelRemote,
                    Step.createSecret, Step.getTargetURL, Step.createConfigMap,
                    Step.createDeployment, Step.createDNSCNAME],
                  providerCalls := ro.calls ++ dno.calls,
                  kubeWrites := so.writes ++ co.writes ++ dpo.writes }

/-! ## Theorems -/

/-- A service exposing only port 8080 — no port matches a request for 80. -/
def c1Service : Service := { Ports := [{ Port := 8080 }], Type' := "ClusterIP", Ingress := [] }

/-- A spec requesting port 80 of `web.default` over http. -/
def c1Ref : ServiceRef := { Name := "web", Namespace := "default", Port := 80, Protocol := "http" }

/-- C1: the spec requires `getTargetURL` to fail with `PortNotFound` when the
target service exposes no port equal to the requested one and to return no
URL.  The code's not-found guard compares the address of a local variable to
nil, which is never true, so for the service exposing only port 8080 and a
request for port 80 the code silently returns the derived URL
`http://web.default:80` with a nil error. -/
theorem getTargetURL_missing_port_still_returns_url :
    getTargetURL c1Ref (.ok c1Service) = .ok "http://web.default:80"
    ∧ (∀ p ∈ c1Service.Ports, p.Port ≠ c1Ref.Port)
    ∧ addrOfLocalIsNil = false := by
  refine ⟨rfl, by decide, rfl⟩

/-- C7: for an existing target service that does contain the requested port,
the derived URL is `protocol://firstIngressAddress:port` for a LoadBalancer
service and `protocol://service-name.namespace:port` otherwise, protocol and
port taken verbatim from the spec. -/
theorem getTargetURL_derivation (svc : Service) (ref : ServiceRef)
    (_hport : ∃ p ∈ svc.Ports, p.Port = ref.Port) :
    (svc.Type' ≠ "LoadBalancer" →
      getTargetURL ref (.ok svc) =
        .ok (ref.Protocol ++ "://" ++ ref.Name ++ "." ++ ref.Namespace ++ ":" ++
          intToStr ref.Port))
    ∧ (∀ ing rest, svc.Type' = "LoadBalancer" → svc.Ingress = ing :: rest →
      getTargetURL ref (.ok svc) =
        .ok (ref.Protocol ++ "://" ++ ing.IP ++ ":" ++ intToStr ref.Port)) := by
  constructor
  · intro hne
    simp only [getTargetURL, addrOfLocalIsNil, Bool.false_eq_true, if_false,
      beq_eq_false_iff_ne, ne_eq, if_neg, hne, not_false_eq_true, beq_iff_eq,
      if_false]
  · intro ing rest htype hing
    simp only [getTargetURL, addrOfLocalIsNil, Bool.false_eq_true, if_false, htype,
      beq_self_eq_true, if_true, hing]

/-- C7 witness: the spec's two worked examples, obtained from
`getTargetURL_derivation` at concrete inputs. -/
theorem getTargetURL_derivation_witness :
    getTargetURL { Name := "web", Namespace := "default", Port := 80, Protocol := "http" }
        (.ok { Ports := [{ Port := 80 }], Type' := "ClusterIP", Ingress := [] }) =
      .ok "http://web.default:80"
    ∧ getTargetURL { Name := "web", Namespace := "default", Port := 8080, Protocol := "https" }
        (.ok { Ports := [{ Port := 8080 }], Type' := "LoadBalancer",
               Ingress := [{ IP := "10.0.0.5" }] }) =
      .ok "https://10.0.0.5:8080" := by
  constructor
  · exact (getTargetURL_derivation
      { Ports := [{ Port := 80 }], Type' := "ClusterIP", Ingress := [] }
      { Name := "web", Namespace := "default", Port := 80, Protocol := "http" }
      ⟨{ Port := 80 }, by decide, rfl⟩).1 (by decide)
  · exact (getTargetURL_derivation
      { Ports := [{ Port := 8080 }], Type' := "LoadBalancer",
        Ingress := [{ IP := "10.0.0.5" }] }
      { Name := "web", Namespace := "default", Port := 8080, Protocol := "https" }
      ⟨{ Port := 8080 }, by decide, rfl⟩).2 { IP := "10.0.0.5" } [] rfl rfl

/-- C10: for a LoadBalancer service the code indexes `Ingress[0]` with no
bounds guard: with an empty ingress list the derivation panics (index out of
range), and with a nonempty one it is defined and yields the first ingress
address. -/
theorem getTargetURL_lb_ingress_bounds (svc : Service) (ref : ServiceRef)
    (hlb : svc.Type' = "LoadBalancer") :
    (svc.Ingress = [] → getTargetURL ref (.ok svc) = .panic)
    ∧ (∀ ing rest, svc.Ingress = ing :: rest →
      getTargetURL ref (.ok svc) =
        .ok (ref.Protocol ++ "://" ++ ing.IP ++ ":" ++ intToStr ref.Port)) := by
  constructor
  · intro hempty
    simp only [getTargetURL, addrOfLocalIsNil, Bool.false_eq_true, if_false, hlb,
      beq_self_eq_true, if_true, hempty]
  · intro ing rest hing
    simp only [getTargetURL, addrOfLocalIsNil, Bool.false_eq_true, if_false, hlb,
      beq_self_eq_true, if_true, hing]

/-- C10 witness: a LoadBalancer service with no assigned ingress address
panics, by `getTargetURL_lb_ingress_bounds` at a concrete input. -/
theorem getTargetURL_lb_ingress_bounds_witness :
    getTargetURL { Name := "web", Namespace := "default", Port := 80, Protocol := "http" }
        (.ok { Ports := [{ Port := 80 }], Type' := "LoadBalancer", Ingress := [] }) =
      .panic :=
  (getTargetURL_lb_ingress_bounds
    { Ports := [{ Port := 80 }], Type' := "LoadBalancer", Ingress := [] }
    { Name := "web", Namespace := "default", Port := 80, Protocol := "http" }
    rfl).1 rfl

/-- Resolved reconciler state used to exercise the child-resource sync. -/
def c2R : TunnelExpanded :=
  { Spec := { Zone := "example.com", Domain := "t.example.com",
              TokenSecretName := "creds",
              Service := { Name := "web", Namespace := "default", Port := 80, Protocol := "http" },
              Replicas := 2 },
    AccountToken := "tok", AccountTag := "acct", Name := "foo", Namespace := "default",
    TunnelID := "tid-1", TunnelSecret := "ts" }

/-- Sync oracle for an absent child whose create succeeds. -/
def c2Env : ChildEnv :=
  { ownerRefErr := none, fetch := .notFoundE "secrets \x22foo\x22 not found",
    createErr := none, updateErr := none }

/-- C2: the spec requires `createOrUpdate` to return the freshly built
resource with no error when the fetch reports not-found and the create
succeeds.  The code issues the create, but then falls through to
`return nil, err` with the original not-found fetch error: it returns a nil
resource and a non-nil error even though exactly one successful create was
issued. -/
theorem createSecret_notFound_create_ok_still_errors :
    (createSecret c2R c2Env).writes = [KubeWrite.createW "Secret" "foo" "default"]
    ∧ (createSecret c2R c2Env).res = none
    ∧ (createSecret c2R c2Env).err = some "secrets \x22foo\x22 not found" :=
  ⟨rfl, rfl, rfl⟩

/-- C4: when the tunnel listing returns two or more matches,
`createTunnelRemote` fails with the ambiguity error, issues no `CreateTunnel`
call (its only provider call is the listing), and leaves the provider state
unchanged. -/
theorem createTunnelRemote_ambiguity (r : TunnelExpanded) (st : ProviderState)
    (entropy : List Nat) (hauth : r.AccountToken ≠ "")
    (h2 : 2 ≤ (listTunnels st (mkTunnelListParams r.AccountTag r.Name r.TunnelID)).length) :
    (createTunnelRemote r st entropy).err = some "multiple tunnels exist"
    ∧ (createTunnelRemote r st entropy).calls =
        [ProviderCall.listTunnels (mkTunnelListParams r.AccountTag r.Name r.TunnelID)]
    ∧ (createTunnelRemote r st entropy).st = st := by
  simp only [createTunnelRemote, if_neg hauth, if_pos h2]
  exact ⟨trivial, trivial, trivial⟩

/-- Provider state holding two non-deleted tunnels named `foo`. -/
def c4St : ProviderState :=
  { tunnels := [({ ID := "a", Name := "foo" }, false), ({ ID := "b", Name := "foo" }, false)],
    freshID := "c", tokens := [], zones := [], dns := [] }

/-- Reconciler state with no previously recorded tunnel identifier. -/
def c4R : TunnelExpanded := { c2R with TunnelID := "" }

/-- C4 witness: the spec's fake-provider scenario — two tunnels named `foo` —
via `createTunnelRemote_ambiguity` at concrete inputs. -/
theorem createTunnelRemote_ambiguity_witness :
    (createTunnelRemote c4R c4St []).err = some "multiple tunnels exist"
    ∧ (createTunnelRemote c4R c4St []).calls =
        [ProviderCall.listTunnels (mkTunnelListParams "acct" "foo" "")]
    ∧ (createTunnelRemote c4R c4St []).st = c4St := by
  have h := createTunnelRemote_ambiguity c4R c4St [] (by decide) (by decide)
  exact h

/-- C5: `createDNSCNAME` is idempotent on existence.  When the CNAME listing
for the domain returns at least one record, no `CreateDNSRecord` call is made
and the provider state is unchanged; when it returns none, the calls are
exactly the zone lookup, the listing, and one `CreateDNSRecord` whose record
has content `TunnelID ++ CNAMESuffix` and TTL 0 (the Go zero value, meaning
the provider-default TTL). -/
theorem createDNSCNAME_idempotent (r : TunnelExpanded) (st : ProviderState)
    (zoneID : String) (hz : provZoneIDByName st r.Spec.Zone = some zoneID) :
    (listDNSRecords st zoneID { Type' := "CNAME", Name := r.Spec.Domain, Content := "", TTL := 0 } ≠ [] →
      (createDNSCNAME r st).st = st
      ∧ ∀ zid rec, ProviderCall.createDNSRecord zid rec ∉ (createDNSCNAME r st).calls)
    ∧ (listDNSRecords st zoneID { Type' := "CNAME", Name := r.Spec.Domain, Content := "", TTL := 0 } = [] →
      (createDNSCNAME r st).calls =
        [ProviderCall.zoneIDByName r.Spec.Zone,
         ProviderCall.dnsRecords zoneID { Type' := "CNAME", Name := r.Spec.Domain, Content := "", TTL := 0 },
         ProviderCall.createDNSRecord zoneID
           { Type' := "CNAME", Name := r.Spec.Domain, Content := r.TunnelID ++ CNAMESuffix, TTL := 0 }]
      ∧ (createDNSCNAME r st).st =
          provCreateDNSRecord st zoneID
            { Type' := "CNAME", Name := r.Spec.Domain, Content := r.TunnelID ++ CNAMESuffix, TTL := 0 }) := by
  constructor
  · intro hne
    have hlen : (listDNSRecords st zoneID
        { Type' := "CNAME", Name := r.Spec.Domain, Content := "", TTL := 0 }).length ≠ 0 := by
      simpa [List.length_eq_zero] using hne
    simp only [createDNSCNAME, hz, if_pos hlen]
    refine ⟨trivial, ?_⟩
    intro zid rec hmem
    simp at hmem
  · intro hempty
    have hlen : ¬ (listDNSRecords st zoneID
        { Type' := "CNAME", Name := r.Spec.Domain, Content := "", TTL := 0 }).length ≠ 0 := by
      simp [hempty]
    simp only [createDNSCNAME, hz, if_neg hlen]
    exact ⟨rfl, trivial⟩

/-- Provider state with the zone `example.com` and no DNS records. -/
def c5StEmpty : ProviderState :=
  { tunnels := [], freshID := "c", tokens := [], zones := [("example.com", "z1")], dns := [] }

/-- Provider state with the zone `example.com` and one CNAME record for
`t.example.com` whose content is stale (unrelated to any tunnel). -/
def c5StExisting : ProviderState :=
  { c5StEmpty with
    dns := [("z1", { Type' := "CNAME", Name := "t.example.com", Content := "stale", TTL := 0 })] }

/-- C5 witness: the spec's two DNS scenarios, via `createDNSCNAME_idempotent`
at concrete inputs — no existing CNAME yields exactly one create with content
`tid-1 ++ CNAMESuffix`; an existing CNAME (stale content) yields no create. -/
theorem createDNSCNAME_idempotent_witness :
    ((createDNSCNAME c2R c5StEmpty).calls =
      [ProviderCall.zoneIDByName "example.com",
       ProviderCall.dnsRecords "z1" { Type' := "CNAME", Name := "t.example.com", Content := "", TTL := 0 },
       ProviderCall.createDNSRecord "z1"
         { Type' := "CNAME", Name := "t.example.com", Content := "tid-1" ++ CNAMESuffix, TTL := 0 }]
    ∧ (createDNSCNAME c2R c5StEmpty).st =
        provCreateDNSRecord c5StEmpty "z1"
          { Type' := "CNAME", Name := "t.example.com", Content := "tid-1" ++ CNAMESuffix, TTL := 0 })
    ∧ ((createDNSCNAME c2R c5StExisting).st = c5StExisting
    ∧ ∀ zid rec, ProviderCall.createDNSRecord zid rec ∉ (createDNSCNAME c2R c5StExisting).calls) := by
  constructor
  · exact (createDNSCNAME_idempotent c2R c5StEmpty "z1" rfl).2 rfl
  · exact (createDNSCNAME_idempotent c2R c5StExisting "z1" rfl).1 (by decide)

/-- Whatever the token fetch and decode yield, `adoptAndFetchToken` records
exactly one `tunnelToken` call after the given ones. -/
theorem adoptAndFetchToken_calls (r : TunnelExpanded) (st : ProviderState)
    (calls : List ProviderCall) (tunnel : Tunnel) :
    (adoptAndFetchToken r st calls tunnel).calls =
      calls ++ [ProviderCall.tunnelToken { AccountID := r.AccountTag, ID := tunnel.ID }] := by
  rcases h : provTunnelToken st { AccountID := r.AccountTag, ID := tunnel.ID } with _ | tok
  · simp [adoptAndFetchToken, h]
  · rcases h2 : base64Decode tok with _ | d <;> simp [adoptAndFetchToken, h, h2]

/-- The tunnel identifier is adopted onto the receiver before the token fetch,
so it is set in every outcome of `adoptAndFetchToken`. -/
theorem adoptAndFetchToken_TunnelID (r : TunnelExpanded) (st : ProviderState)
    (calls : List ProviderCall) (tunnel : Tunnel) :
    (adoptAndFetchToken r st calls tunnel).r.TunnelID = tunnel.ID := by
  rcases h : provTunnelToken st { AccountID := r.AccountTag, ID := tunnel.ID } with _ | tok
  · simp [adoptAndFetchToken, h]
  · rcases h2 : base64Decode tok with _ | d <;> simp [adoptAndFetchToken, h, h2]

/-- `adoptAndFetchToken` performs no provider write. -/
theorem adoptAndFetchToken_st (r : TunnelExpanded) (st : ProviderState)
    (calls : List ProviderCall) (tunnel : Tunnel) :
    (adoptAndFetchToken r st calls tunnel).st = st := by
  rcases h : provTunnelToken st { AccountID := r.AccountTag, ID := tunnel.ID } with _ | tok
  · simp [adoptAndFetchToken, h]
  · rcases h2 : base64Decode tok with _ | d <;> simp [adoptAndFetchToken, h, h2]

/-- C6: with zero listing matches, `createTunnelRemote` draws 32 bytes from
the entropy source, base64-encodes them, passes exactly that encoded secret
together with the spec name to `CreateTunnel`, and adopts the identifier the
provider returns (`st.freshID`) as the reconciler's `TunnelID`. -/
theorem createTunnelRemote_creates_when_absent (r : TunnelExpanded)
    (st : ProviderState) (entropy : List Nat) (hauth : r.AccountToken ≠ "")
    (hlist : listTunnels st (mkTunnelListParams r.AccountTag r.Name r.TunnelID) = [])
    (hlen : 32 ≤ entropy.length) :
    (createTunnelRemote r st entropy).calls =
      [ProviderCall.listTunnels (mkTunnelListParams r.AccountTag r.Name r.TunnelID),
       ProviderCall.createTunnel
         { AccountID := r.AccountTag, Name := r.Name,
           Secret := base64Encode (entropy.take 32) },
       ProviderCall.tunnelToken { AccountID := r.AccountTag, ID := st.freshID }]
    ∧ (createTunnelRemote r st entropy).r.TunnelID = st.freshID
    ∧ (entropy.take 32).length = 32 := by
  have hglen : ¬ entropy.length < 32 := Nat.not_lt.mpr hlen
  have hgen : generateTunnelSecret entropy = .ok (base64Encode (entropy.take 32)) := by
    simp only [generateTunnelSecret, if_neg hglen]
  have h2 : ¬ 2 ≤ (listTunnels st (mkTunnelListParams r.AccountTag r.Name r.TunnelID)).length := by
    simp [hlist]
  have h1 : ¬ (listTunnels st (mkTunnelListParams r.AccountTag r.Name r.TunnelID)).length = 1 := by
    simp [hlist]
  simp only [createTunnelRemote, if_neg hauth, if_neg h2, if_neg h1, hgen,
    provCreateTunnel]
  refine ⟨?_, ?_, ?_⟩
  · rw [adoptAndFetchToken_calls]
    rfl
  · rw [adoptAndFetchToken_TunnelID]
  · exact List.length_take_of_le hlen

/-- Reconciler state and provider for the creation scenario: no tunnel named
`foo` exists; the provider will assign `tid-9`. -/
def c6St : ProviderState :=
  { tunnels := [({ ID := "x", Name := "bar" }, false)], freshID := "tid-9",
    tokens := [], zones := [], dns := [] }

/-- C6 witness: `createTunnelRemote_creates_when_absent` at a concrete
provider state with no matching tunnel and a concrete 32-byte entropy
stream. -/
theorem createTunnelRemote_creates_when_absent_witness :
    (createTunnelRemote c4R c6St (List.replicate 32 7)).calls =
      [ProviderCall.listTunnels (mkTunnelListParams "acct" "foo" ""),
       ProviderCall.createTunnel
         { AccountID := "acct", Name := "foo",
           Secret := base64Encode ((List.replicate 32 7).take 32) },
       ProviderCall.tunnelToken { AccountID := "acct", ID := "tid-9" }]
    ∧ (createTunnelRemote c4R c6St (List.replicate 32 7)).r.TunnelID = "tid-9"
    ∧ ((List.replicate 32 7).take 32).length = 32 := by
  have h := createTunnelRemote_creates_when_absent c4R c6St (List.replicate 32 7)
    (by decide) (by decide) (by decide)
  exact h

/-- The listing filter always carries the spec name. -/
theorem mkTunnelListParams_Name (accountID name tunnelID : String) :
    (mkTunnelListParams accountID name tunnelID).Name = name := by
  unfold mkTunnelListParams
  split <;> rfl

/-- The listing filter always asks for non-deleted tunnels. -/
theorem mkTunnelListParams_IsDeleted (accountID name tunnelID : String) :
    (mkTunnelListParams accountID name tunnelID).IsDeleted = some false := by
  unfold mkTunnelListParams
  split <;> rfl

/-- The listing filter's `UUID` equals the recorded identifier: it is set to
it when nonempty, and left at the Go zero value `""` — which is itself the
recorded identifier — otherwise. -/
theorem mkTunnelListParams_UUID (accountID name tunnelID : String) :
    (mkTunnelListParams accountID name tunnelID).UUID = tunnelID := by
  by_cases h : tunnelID = ""
  · simp [mkTunnelListParams, h]
  · simp [mkTunnelListParams, h]

/-- C8: the first (and only) listing call of `createTunnelRemote` uses the
filter built by `mkTunnelListParams`: always the spec name and the not-deleted
flag, plus the recorded identifier as `UUID` when it is nonempty and the empty
(no-op) `UUID` otherwise; consequently every tunnel the listing returns has
the spec name and, when an identifier was recorded, that identifier. -/
theorem createTunnelRemote_narrowed_listing (r : TunnelExpanded)
    (st : ProviderState) (entropy : List Nat) (hauth : r.AccountToken ≠ "") :
    (createTunnelRemote r st entropy).calls.head? =
      some (ProviderCall.listTunnels (mkTunnelListParams r.AccountTag r.Name r.TunnelID))
    ∧ (r.TunnelID ≠ "" → mkTunnelListParams r.AccountTag r.Name r.TunnelID =
        { AccountID := r.AccountTag, Name := r.Name, IsDeleted := some false,
          UUID := r.TunnelID })
    ∧ (r.TunnelID = "" → mkTunnelListParams r.AccountTag r.Name r.TunnelID =
        { AccountID := r.AccountTag, Name := r.Name, IsDeleted := some false, UUID := "" })
    ∧ ∀ t ∈ listTunnels st (mkTunnelListParams r.AccountTag r.Name r.TunnelID),
        t.Name = r.Name ∧ (r.TunnelID ≠ "" → t.ID = r.TunnelID) := by
  refine ⟨?_, ?_, ?_, ?_⟩
  · simp only [createTunnelRemote, if_neg hauth]
    by_cases h2 : 2 ≤ (listTunnels st (mkTunnelListParams r.AccountTag r.Name r.TunnelID)).length
    · simp [if_pos h2]
    · simp only [if_neg h2]
      by_cases h1 : (listTunnels st (mkTunnelListParams r.AccountTag r.Name r.TunnelID)).length = 1
      · simp [if_pos h1, adoptAndFetchToken_calls]
      · simp only [if_neg h1]
        rcases hg : generateTunnelSecret entropy with e | s
        · simp
        · simp [provCreateTunnel, adoptAndFetchToken_calls]
  · intro h
    simp [mkTunnelListParams, h]
  · intro h
    simp [mkTunnelListParams, h]
  · intro t ht
    simp only [listTunnels, List.mem_map, List.mem_filter] at ht
    obtain ⟨tb, ⟨_, hcond⟩, rfl⟩ := ht
    rw [mkTunnelListParams_Name, mkTunnelListParams_IsDeleted, mkTunnelListParams_UUID]
      at hcond
    simp only [Bool.and_eq_true, Bool.or_eq_true, beq_iff_eq] at hcond
    refine ⟨hcond.1.1, ?_⟩
    intro hne
    rcases hcond.2 with h | h
    · exact absurd h hne
    · exact h

/-- Reconciler state with a recorded identifier, and a provider holding two
same-named tunnels of which only one carries that identifier. -/
def c8St : ProviderState :=
  { tunnels := [({ ID := "tid-1", Name := "foo" }, false),
                ({ ID := "other", Name := "foo" }, false)],
    freshID := "z", tokens := [], zones := [], dns := [] }

/-- C8 witness: `createTunnelRemote_narrowed_listing` at a reconciler state
whose status already records `tid-1` — the listing filter carries that UUID —
and at one with an empty recorded identifier — the filter carries the empty
no-op UUID. -/
theorem createTunnelRemote_narrowed_listing_witness :
    ((createTunnelRemote c2R c8St []).calls.head? =
      some (ProviderCall.listTunnels (mkTunnelListParams "acct" "foo" "tid-1"))
    ∧ mkTunnelListParams "acct" "foo" "tid-1" =
        { AccountID := "acct", Name := "foo", IsDeleted := some false, UUID := "tid-1" })
    ∧ mkTunnelListParams "acct" "foo" "" =
        { AccountID := "acct", Name := "foo", IsDeleted := some false, UUID := "" } := by
  have h := createTunnelRemote_narrowed_listing c2R c8St [] (by decide)
  have h2 := createTunnelRemote_narrowed_listing c4R c8St [] (by decide)
  exact ⟨⟨h.1, h.2.1 (by decide)⟩, h2.2.2.1 rfl⟩

/-- C9: when credential resolution fails, the pass returns that error at once:
the only steps started are the CR fetch and `fetchDecodeSecret`; no provider
call and no Kubernetes write is issued, and in particular the remote-tunnel
step, target resolution, the three resource syncs and the DNS step never
run. -/
theorem reconcile_credential_failfast (env : ReconcileEnv)
    (cr : CloudflareTunnel) (e : String) (hcr : env.getCR = .ok cr)
    (hfd : (fetchDecodeSecret (initialExpanded cr) env.k8sSecrets).2 = some e) :
    (reconcile env).err = some e
    ∧ (reconcile env).steps = [Step.fetchCR, Step.fetchDecodeSecret]
    ∧ (reconcile env).providerCalls = []
    ∧ (reconcile env).kubeWrites = []
    ∧ Step.createTunnelRemote ∉ (reconcile env).steps
    ∧ Step.getTargetURL ∉ (reconcile env).steps
    ∧ Step.createSecret ∉ (reconcile env).steps
    ∧ Step.createConfigMap ∉ (reconcile env).steps
    ∧ Step.createDeployment ∉ (reconcile env).steps
    ∧ Step.createDNSCNAME ∉ (reconcile env).steps := by
  have hred : reconcile env =
      { err := some e,
        rFinal := some (fetchDecodeSecret (initialExpanded cr) env.k8sSecrets).1,
        statusTunnelID := some cr.Status.TunnelID,
        steps := [Step.fetchCR, Step.fetchDecodeSecret],
        providerCalls := [], kubeWrites := [] } := by
    simp only [reconcile, hcr]
    rw [hfd]
  rw [hred]
  refine ⟨rfl, rfl, rfl, rfl, ?_, ?_, ?_, ?_, ?_, ?_⟩ <;> simp

/-- The reconcile environment of a pass whose spec names no credential
secret: `fetchDecodeSecret` fails with the configuration error before looking
anything up. -/
def c9Env : ReconcileEnv :=
  { getCR := .ok
      { Name := "foo", Namespace := "default",
        Spec := { Zone := "example.com", Domain := "t.example.com",
                  TokenSecretName := "",
                  Service := { Name := "web", Namespace := "default", Port := 80,
                               Protocol := "http" },
                  Replicas := 2 },
        Status := { TunnelID := "" } },
    k8sSecrets := [],
    provider := { tunnels := [], freshID := "t", tokens := [], zones := [], dns := [] },
    entropy := [],
    targetService := .error (.notFound "no"),
    secretChild := { ownerRefErr := none, fetch := .found, createErr := none, updateErr := none },
    configBuildErr := none,
    configChild := { ownerRefErr := none, fetch := .found, createErr := none, updateErr := none },
    deployChild := { ownerRefErr := none, fetch := .found, createErr := none, updateErr := none } }

/-- C9 witness: `reconcile_credential_failfast` at `c9Env`, whose credential
resolution fails with the missing-reference configuration error. -/
theorem reconcile_credential_failfast_witness :
    (reconcile c9Env).err = some "CredentialSecretName key does not exist"
    ∧ (reconcile c9Env).steps = [Step.fetchCR, Step.fetchDecodeSecret]
    ∧ (reconcile c9Env).providerCalls = []
    ∧ (reconcile c9Env).kubeWrites = [] := by
  have h := reconcile_credential_failfast c9Env
    { Name := "foo", Namespace := "default",
      Spec := { Zone := "example.com", Domain := "t.example.com",
                TokenSecretName := "",
                Service := { Name := "web", Namespace := "default", Port := 80,
                             Protocol := "http" },
                Replicas := 2 },
      Status := { TunnelID := "" } }
    "CredentialSecretName key does not exist" rfl rfl
  exact ⟨h.1, h.2.1, h.2.2.1, h.2.2.2.1⟩

/-- A first-pass reconcile environment: the persisted status records no
tunnel identifier, the provider holds no tunnel (it will assign `tid-1` and
serves its connector token), credentials resolve, the target service exists,
and all three child resources are present so every step of the pass runs. -/
def c3Env : ReconcileEnv :=
  { getCR := .ok
      { Name := "foo", Namespace := "default",
        Spec := { Zone := "example.com", Domain := "t.example.com",
                  TokenSecretName := "creds",
                  Service := { Name := "web", Namespace := "default", Port := 80,
                               Protocol := "http" },
                  Replicas := 2 },
        Status := { TunnelID := "" } },
    k8sSecrets := [(("creds", "default"), [("token", "tok"), ("accountID", "acct")])],
    provider := { tunnels := [], freshID := "tid-1", tokens := [("tid-1", "aGVsbG8=")],
                  zones := [("example.com", "z1")], dns := [] },
    entropy := List.replicate 32 0,
    targetService := .ok { Ports := [{ Port := 80 }], Type' := "ClusterIP", Ingress := [] },
    secretChild := { ownerRefErr := none, fetch := .found, createErr := none, updateErr := none },
    configBuildErr := none,
    configChild := { ownerRefErr := none, fetch := .found, createErr := none, updateErr := none },
    deployChild := { ownerRefErr := none, fetch := .found, createErr := none, updateErr := none } }

/-- C3: the spec states the tunnel identifier is written back into the spec
instance's status after a pass that creates the remote tunnel.  In the
complete pass `c3Env` the provider's `CreateTunnel` is called and the
reconciler's in-memory `TunnelID` becomes `tid-1`, yet the pass issues no
status update — the persisted status still records the empty identifier, so a
subsequent pass cannot narrow provider lookups by it. -/
theorem reconcile_does_not_persist_tunnelID :
    (reconcile c3Env).err = none
    ∧ ProviderCall.createTunnel
        { AccountID := "acct", Name := "foo",
          Secret := base64Encode ((List.replicate 32 0).take 32) } ∈
        (reconcile c3Env).providerCalls
    ∧ Option.map TunnelExpanded.TunnelID (reconcile c3Env).rFinal = some "tid-1"
    ∧ (reconcile c3Env).statusTunnelID = some ""
    ∧ ∀ n m, KubeWrite.statusUpdateW n m ∉ (reconcile c3Env).kubeWrites := by
  refine ⟨rfl, by decide, rfl, rfl, ?_⟩
  intro n m hmem
  have hk : (reconcile c3Env).kubeWrites =
      [KubeWrite.updateW "Secret" "foo" "default",
       KubeWrite.updateW "ConfigMap" "foo" "default",
       KubeWrite.updateW "Deployment" "foo" "default"] := rfl
  rw [hk] at hmem
  simp at hmem

end CFTunnel
